import Mathlib

/-!
Verification of the eegos RPC framework (github.com/lizhen1412/eegos).

This development shallowly embeds the core of the repository in Lean 4:

* the wire frame codec `Session.pack` / `Session.Reader` (network/session.go),
* the session lifecycle (`Start` / `Close` / `Release`) and its state
  constants (network/define.go),
* the outbound write path `Session.doWrite`,
* the server dispatch of `HEARTBEAT` frames (network/tcp.go,
  `TcpServer.processInData`),
* the RPC server envelope dispatch (`rpc.Server.Message`),
* the RPC client pending-call table (`rpc.Client.Call` / `Client.Message`).

Go byte slices are modelled as `List Nat` whose elements are byte values;
`uint16` / `uint8` arithmetic is carried out on `Nat` with explicit `% 256`
and `% 65536` where the Go code narrows.  Channels that only carry data are
modelled by the value delivered; a Go `close` of an already-closed channel
(a runtime panic) is modelled by `Option` failure.
-/

namespace Eegos

/-! ## Constants (network/define.go) -/

/-- Session state `NEW_CONNECTION` (iota 0). -/
def NEW_CONNECTION : Nat := 0
/-- Session state `WORKING` (iota 1). -/
def WORKING : Nat := 1
/-- Session state `CLOSING` (iota 2). -/
def CLOSING : Nat := 2
/-- Session state `CLOSED` (iota 3). -/
def CLOSED : Nat := 3

/-- Packet kind `PKG_TYPE` (iota 0). -/
def PKG_TYPE : Nat := 0
/-- Packet kind `HEARTBEAT` (iota 1). -/
def HEARTBEAT : Nat := 1
/-- Packet kind `HEARTBEAT_RET` (iota 2), the heartbeat acknowledgment. -/
def HEARTBEAT_RET : Nat := 2
/-- Packet kind `DATA` (iota 3). -/
def DATA : Nat := 3

/-- The `Data` struct of network/define.go: one decoded wire frame. -/
structure Data where
  dType : Nat
  head : Nat
  body : List Nat
deriving DecidableEq, Repr

/-! ## Wire frame codec (Session.pack / Session.Reader) -/

/-- `Session.pack(head uint16, dType uint8, body []byte)`.

Computes `length := len(body)`; if `length > 65535` it logs a warning and
replaces the body by the empty slice with `length = 0`.  The emitted packet is
the 5-byte header `uint8(length), uint8(length>>8), dType, uint8(head),
uint8(head>>8)` followed by the body bytes. -/
def pack (head : Nat) (dType : Nat) (body : List Nat) : List Nat :=
  let length := body.length
  let length2 := if length > 65535 then 0 else length
  let body2 := if length > 65535 then ([] : List Nat) else body
  [length2 % 256, (length2 / 256) % 256, dType, head % 256, (head / 256) % 256] ++ body2

/-- `io.ReadFull(conn, b)` over a byte stream modelled as a list: succeeds
exactly when `n` bytes are available, returning them and the rest. -/
def readFull (n : Nat) (s : List Nat) : Option (List Nat × List Nat) :=
  if n ≤ s.length then some (s.take n, s.drop n) else none

/-- `Session.Reader` as the pure frame decoder over the byte stream: reads the
5-byte header, computes `pkgLen := uint16(b[0]) + uint16(b[1])<<8`,
`dType := b[2]`, `head := uint16(b[3]) + uint16(b[4])<<8`, then reads `pkgLen`
body bytes when `pkgLen > 0`.  Returns the decoded frame (which the Go code
sends on the session's `inData` channel) and the unconsumed remainder of the
stream; `none` models an I/O error from either `ReadFull`. -/
def Reader (s : List Nat) : Option (Data × List Nat) :=
  match readFull 5 s with
  | none => none
  | some (b, rest) =>
    let pkgLen := (b.getD 0 0 + b.getD 1 0 * 256) % 65536
    let dType := b.getD 2 0
    let head := (b.getD 3 0 + b.getD 4 0 * 256) % 65536
    if pkgLen > 0 then
      match readFull pkgLen rest with
      | none => none
      | some (body, rest2) => some (⟨dType, head, body⟩, rest2)
    else
      some (⟨dType, head, []⟩, rest)

/-! ## Session lifecycle (Session.Start / Close / Release)

`Session.Start` sets `state = WORKING` (and spawns the read/write pumps),
`Session.Close` sets `state = CLOSING`, `Session.Release` closes the three
channels and sets `state = CLOSED`.  For the state-machine claims only the
state field matters; the channel closes are modelled separately for the
double-release claim. -/

/-- The three lifecycle operations of a session. -/
inductive SessionOp
  | start
  | close
  | release
deriving DecidableEq, Repr

/-- The state written by each lifecycle operation.  Each of `Start`, `Close`
and `Release` assigns its target state unconditionally, regardless of the
current state. -/
def applyOp : Nat → SessionOp → Nat
  | _, .start => WORKING
  | _, .close => CLOSING
  | _, .release => CLOSED

/-- The sequence of states a session passes through when a sequence of
lifecycle operations is applied from state `s` (initial state included). -/
def trace (s : Nat) : List SessionOp → List Nat
  | [] => [s]
  | op :: ops => s :: trace (applyOp s op) ops

/-- A state trace is forward when consecutive states never decrease. -/
def isForward : List Nat → Bool
  | [] => true
  | [_] => true
  | a :: b :: rest => decide (a ≤ b) && isForward (b :: rest)

/-- A state trace is strictly forward when every step strictly increases. -/
def isStrictForward : List Nat → Bool
  | [] => true
  | [_] => true
  | a :: b :: rest => decide (a < b) && isStrictForward (b :: rest)

/-- The state each lifecycle operation is meant to be applied in: `Start` on a
fresh `NEW_CONNECTION` session, `Close` on a `WORKING` one, `Release` on a
`CLOSING` one. -/
def opPre : SessionOp → Nat
  | .start => NEW_CONNECTION
  | .close => WORKING
  | .release => CLOSING

/-- A run is protocol-respecting when every operation is applied exactly in
its intended predecessor state. -/
def validRun : Nat → List SessionOp → Bool
  | _, [] => true
  | s, op :: ops => decide (s = opPre op) && validRun (applyOp s op) ops

/-! ## Release and channel close (Session.Release)

`Session.Release` executes `close(inData); close(outData); close(cClose)` and
then sets `state = CLOSED`.  In Go, `close` on an already-closed channel is a
runtime panic; the model tracks one open/closed flag per channel and returns
`none` for the abort. -/

/-- The closeable resources of a session together with its state field. -/
structure SessionRes where
  inOpen : Bool
  outOpen : Bool
  cCloseOpen : Bool
  state : Nat
deriving DecidableEq, Repr

/-- A session as produced by `CreateSession`: all three channels freshly made
(open), state `NEW_CONNECTION`. -/
def createSession : SessionRes :=
  { inOpen := true, outOpen := true, cCloseOpen := true, state := NEW_CONNECTION }

/-- Go's `close` on a channel: marks it closed, or aborts (`none`) when it is
already closed. -/
def goClose (isOpen : Bool) : Option Bool :=
  if isOpen then some false else none

/-- `Session.Release`: closes `inData`, `outData` and `cClose` in order and
sets the state to `CLOSED`; `none` models the run aborting in a panic at the
first `close` of an already-closed channel. -/
def Release (s : SessionRes) : Option SessionRes :=
  match goClose s.inOpen with
  | none => none
  | some inC =>
    match goClose s.outOpen with
    | none => none
    | some outC =>
      match goClose s.cCloseOpen with
      | none => none
      | some cC =>
        some { inOpen := inC, outOpen := outC, cCloseOpen := cC, state := CLOSED }

/-! ## Outbound write path (Session.doWrite) -/

/-- `Session.doWrite(head, dType, data)`: when the state is not `WORKING` it
logs an error and sends nothing; otherwise a `nil` slice is replaced by the
empty slice, the frame is packed and enqueued on `outData`.  The result is
the packet enqueued on the outbound queue, or `none` when the write is
dropped. -/
def doWrite (state : Nat) (head dType : Nat) (data : Option (List Nat)) :
    Option (List Nat) :=
  if state ≠ WORKING then none
  else some (pack head dType (data.getD []))

/-! ## Server heartbeat dispatch (TcpServer.processInData)

On a frame with `dType == HEARTBEAT` the server's dispatch loop checks the
session state: if it is not `WORKING` the frame is skipped, otherwise it
calls `s.doWrite(data.head, HEARTBEAT_RET, []byte{})` to enqueue the
acknowledgment. -/

/-- The reply frame (if any) the server's dispatch loop enqueues for an
inbound `HEARTBEAT` frame carrying correlation id `head`. -/
def serverHandleHeartbeat (state : Nat) (head : Nat) : Option (List Nat) :=
  if state ≠ WORKING then none
  else doWrite state head HEARTBEAT_RET (some [])

/-! ## JSON values and Go reflect conversion

`json.Unmarshal` into `[]interface{}` yields `nil`, `bool`, `float64` (all
JSON numbers), `string`, `[]interface{}` or `map[string]interface{}`.  The
number's value is irrelevant to dispatch, so it is carried as an `Int`. -/

/-- A JSON value as decoded by `json.Unmarshal` into `interface{}`. -/
inductive JVal
  | jnull
  | jbool (b : Bool)
  | jnum (n : Int)
  | jstr (s : String)
  | jarr (elems : List JVal)

/-- The Go kinds that can appear as declared parameter types of a registered
method, as far as the dispatch model needs them. -/
inductive GoKind
  | kInt
  | kFloat64
  | kString
  | kBool
deriving DecidableEq, Repr

/-- Whether `reflect.ValueOf(v).Convert(k)` succeeds for a value `v` produced
by `json.Unmarshal` into `interface{}` and a declared parameter kind `k`:
Go numeric conversions allow `float64` to any numeric kind; `string` only to
string kinds; `bool` only to `bool`; a JSON `null` yields the invalid
`reflect.Value`, on which `Convert` always aborts; a decoded JSON array is
not convertible to any of these scalar kinds. -/
def convertOK : JVal → GoKind → Bool
  | .jnum _, .kInt => true
  | .jnum _, .kFloat64 => true
  | .jstr _, .kString => true
  | .jbool _, .kBool => true
  | _, _ => false

/-! ## Association lists (Go maps) -/

/-- Lookup in a map modelled as an association list (an insert overwrites, so
keys are unique and the first match wins). -/
def findVal {α β : Type} [DecidableEq α] : List (α × β) → α → Option β
  | [], _ => none
  | (k', v) :: rest, k => if k' = k then some v else findVal rest k

/-- Go `delete(m, k)`: removes the binding of `k`. -/
def eraseKey {α β : Type} [DecidableEq α] (l : List (α × β)) (k : α) :
    List (α × β) :=
  l.filter (fun p => decide (p.1 ≠ k))

/-- Go `m[k] = v`: binds `k` to `v`, replacing any previous binding. -/
def insertKey {α β : Type} [DecidableEq α] (l : List (α × β)) (k : α) (v : β) :
    List (α × β) :=
  (k, v) :: eraseKey l k

/-! ## RPC client (rpc.Client.Call / Client.Message)

The pending-call table `callRet : map[uint16]chan []interface{}` is modelled
as an association list from correlation id to a waiter identifier (standing
for the channel). -/

/-- The client's pending-call table: correlation id → waiter. -/
abbrev Table := List (Nat × Nat)

/-- The outcome `Client.Call` observes in its `select`: either the waiter
fires (with the decoded response and whether the channel was still open), or
the 3-second timer does. -/
inductive CallOutcome
  | response (ret : List JVal) (chanOpen : Bool)
  | timeout

/-- `Client.Call(v)`: with a fresh correlation id `sid` and a fresh waiter
`w`, marshals `v` (`marshalResult = none` is a `json.Marshal` error, which
returns `nil` before touching the table), registers `w` under `sid`, writes
the request, then selects on the waiter versus the 3-second timeout.  The
result is the value `Call` returns (`none` is Go `nil`) paired with the
pending-call table as `Call` itself leaves it — on a response the waiter's
removal is done by the `Client.Message` dispatch path, not by `Call`. -/
def Call (st : Table) (sid w : Nat) (marshalResult : Option (List Nat))
    (outcome : CallOutcome) : Option (List JVal) × Table :=
  match marshalResult with
  | none => (none, st)
  | some _ =>
    let st1 := insertKey st sid w
    match outcome with
    | .response ret chanOpen => (if chanOpen then some ret else none, st1)
    | .timeout => (none, st1)

/-- `Client.Message(fd, sessionID, body)`: looks the correlation id up in the
pending-call table; absent → return with nothing delivered and the table
untouched; present but `body` fails to unmarshal → return, again leaving the
table untouched; otherwise deliver the decoded arguments to the registered
waiter, delete the table entry and close the waiter.  The result is the
delivery (waiter, arguments), the resulting table, and the list of waiters
closed.  `unmarshalResult` is the outcome of `json.Unmarshal(body, &args)`. -/
def ClientMessage (st : Table) (sessionID : Nat)
    (unmarshalResult : Option (List JVal)) :
    Option (Nat × List JVal) × Table × List Nat :=
  match findVal st sessionID with
  | none => (none, st, [])
  | some waitRet =>
    match unmarshalResult with
    | none => (none, st, [])
    | some args => (some (waitRet, args), eraseKey st sessionID, [waitRet])

/-! ## RPC server dispatch (rpc.Server.Message) -/

/-- One registered service: its method table, method name → declared
parameter kinds (the `methods` map of `rpc.Service`). -/
structure ServiceEntry where
  methods : List (String × List GoKind)

/-- The parts of `rpc.Server` the `Message` dispatch reads: the fds with a
registered session and the service registry. -/
structure ServerModel where
  sessions : List Nat
  serviceMap : List (String × ServiceEntry)

/-- `strings.LastIndex(info, ".")` over the characters of `info`: the index
of the last dot, or `none` when there is no dot (Go returns `-1`). -/
def lastIndexDot : List Char → Option Nat
  | [] => none
  | c :: rest =>
    match lastIndexDot rest with
    | some i => some (i + 1)
    | none => if c = '.' then some 0 else none

/-- The argument-conversion loop of `Server.Message`: for each declared
parameter kind in order it takes the next supplied argument (`args[i+1]`)
and converts it with `reflect.Value.Convert`.  Running past the end of the
supplied arguments is an index-out-of-range abort; a failing `Convert` is a
reflect abort.  Extra supplied arguments beyond the declared ones are
ignored. -/
def convertArgs : List JVal → List GoKind → Except Unit (List JVal)
  | _, [] => .ok []
  | [], _ :: _ => .error ()
  | v :: vs, k :: ks =>
    if convertOK v k then
      match convertArgs vs ks with
      | .ok rest => .ok (v :: rest)
      | .error e => .error e
    else .error ()

/-- How one inbound envelope ends at the server: silently dropped (the
handler returns with no write), aborted by a runtime panic, or answered with
a response frame for `sessionID` whose body is the JSON-encoded return
values (`none` is the `nil` body written for a zero-return method). -/
inductive RpcOutcome
  | dropped
  | panicked
  | sent (sessionID : Nat) (respBody : Option (List JVal))

/-- `rpc.Server.Message(fd, sessionID, body)`.

`unmarshal` stands for `json.Unmarshal(body, &args)` (`none` = error, which
covers both invalid JSON and JSON that is not an array); `run` stands for
invoking the located method via `Server.RunFunc` (`none` = the method has
zero return values, so a `nil` body is written back).

The dispatch mirrors the source: unknown fd, unmarshal error, empty
argument array, a first element without a dot, an unknown service and an
unknown method each return early (frame dropped).  A first element that is
not a string is a failing unchecked type assertion, and an argument the
reflect `Convert` rejects is a `Convert` abort: both end the goroutine in a
runtime panic. -/
def ServerMessage (srv : ServerModel)
    (unmarshal : List Nat → Option (List JVal))
    (run : String → String → List JVal → Option (List JVal))
    (fd sessionID : Nat) (body : List Nat) : RpcOutcome :=
  if ¬ srv.sessions.contains fd then .dropped
  else
    match unmarshal body with
    | none => .dropped
    | some args =>
      match args with
      | [] => .dropped
      | a0 :: restArgs =>
        match a0 with
        | .jstr info =>
          match lastIndexDot info.toList with
          | none => .dropped
          | some dot =>
            let serviceName := String.mk (info.toList.take dot)
            let methodName := String.mk (info.toList.drop (dot + 1))
            match findVal srv.serviceMap serviceName with
            | none => .dropped
            | some sInfo =>
              match findVal sInfo.methods methodName with
              | none => .dropped
              | some argKinds =>
                match convertArgs restArgs argKinds with
                | .error _ => .panicked
                | .ok callArgs => .sent sessionID (run serviceName methodName callArgs)
        | _ => .panicked

/-! ### Concrete instances used by counterexamples and witnesses -/

/-- A registry with one service `S` exposing one method `M` that declares a
single `int` parameter; one session registered under fd 1. -/
def srvW : ServerModel :=
  { sessions := [1], serviceMap := [("S", { methods := [("M", [GoKind.kInt])] })] }

/-- An unmarshal result exercising each failure mode, selected by the body:
`[0]` is invalid JSON, `[1]` decodes to an envelope whose first element has
no dot, `[2]` names an unregistered service, `[3]` names an unregistered
method of `S`, `[4]` passes a `bool` argument to `S.M`, whose declared
parameter type is `int`. -/
def umW : List Nat → Option (List JVal)
  | [0] => none
  | [1] => some [JVal.jstr "SM"]
  | [2] => some [JVal.jstr "T.M"]
  | [3] => some [JVal.jstr "S.Q"]
  | [4] => some [JVal.jstr "S.M", JVal.jbool true]
  | _ => none

/-- An unmarshal result passing a string argument to `S.M`, whose declared
parameter type is `int` — a conversion `reflect.Convert` rejects. -/
def umConvertFail : List Nat → Option (List JVal) :=
  fun _ => some [JVal.jstr "S.M", JVal.jstr "x"]

/-- A method runner standing for a method with zero return values. -/
def runNone : String → String → List JVal → Option (List JVal) :=
  fun _ _ _ => none

/-! ## Helper theorems -/

/-- Reassembling a value `< 65536` from its two little-endian bytes gives the
value back. -/
theorem two_bytes_reassemble (v : Nat) (hv : v < 65536) :
    (v % 256 + (v / 256) % 256 * 256) % 65536 = v := by
  have hdiv : v / 256 < 256 := Nat.div_lt_of_lt_mul (by omega)
  rw [Nat.mod_eq_of_lt hdiv]
  have : v % 256 + v / 256 * 256 = v := by
    rw [Nat.mul_comm]
    exact Nat.mod_add_div v 256
  rw [this, Nat.mod_eq_of_lt hv]

/-- For an in-range body, `pack` keeps the body and emits the 5-byte header. -/
theorem pack_eq_of_le (head dType : Nat) (body : List Nat)
    (hb : body.length ≤ 65535) :
    pack head dType body =
      [body.length % 256, (body.length / 256) % 256, dType,
        head % 256, (head / 256) % 256] ++ body := by
  have h : ¬ body.length > 65535 := by omega
  simp [pack, h]

/-- Reading the first five bytes of a header-plus-body stream yields the
header and leaves the body. -/
theorem readFull_five (a b c d e : Nat) (body : List Nat) :
    readFull 5 ([a, b, c, d, e] ++ body) = some ([a, b, c, d, e], body) := by
  simp [readFull]

/-- Decoding a packed in-range frame recovers the head, kind and body exactly,
consuming the whole packet. -/
theorem reader_pack (head dType : Nat) (body : List Nat)
    (hh : head < 65536) (hb : body.length ≤ 65535) :
    Reader (pack head dType body) = some (⟨dType, head, body⟩, []) := by
  rw [pack_eq_of_le head dType body hb]
  unfold Reader
  rw [readFull_five]
  have hlen65536 : body.length < 65536 := by omega
  simp only [List.getD_cons_zero, List.getD_cons_succ]
  rw [two_bytes_reassemble body.length hlen65536, two_bytes_reassemble head hh]
  by_cases hpos : body.length > 0
  · rw [if_pos hpos]
    unfold readFull
    rw [if_pos (Nat.le_refl _)]
    simp
  · rw [if_neg hpos]
    have : body = [] := List.length_eq_zero.mp (by omega)
    simp [this]

/-- Every trace starts with its initial state. -/
theorem trace_cons (s : Nat) (ops : List SessionOp) :
    ∃ t, trace s ops = s :: t := by
  cases ops with
  | nil => exact ⟨[], rfl⟩
  | cons op ops => exact ⟨trace (applyOp s op) ops, rfl⟩

/-- Along a protocol-respecting run the state strictly increases at every
step. -/
theorem validRun_strictForward (ops : List SessionOp) :
    ∀ s : Nat, validRun s ops = true → isStrictForward (trace s ops) = true := by
  induction ops with
  | nil => intro s _; rfl
  | cons op ops ih =>
    intro s hv
    simp only [validRun, Bool.and_eq_true, decide_eq_true_eq] at hv
    obtain ⟨hs, hrest⟩ := hv
    obtain ⟨t, ht⟩ := trace_cons (applyOp s op) ops
    have hstep : s < applyOp s op := by
      subst hs
      cases op <;> simp [applyOp, opPre, NEW_CONNECTION, WORKING, CLOSING, CLOSED]
    have htail : isStrictForward (trace (applyOp s op) ops) = true := ih _ hrest
    simp only [trace, ht] at htail ⊢
    simp only [isStrictForward, Bool.and_eq_true, decide_eq_true_eq]
    exact ⟨hstep, htail⟩

/-- Unfolding a `delete` over the head binding of the list. -/
theorem eraseKey_cons {α β : Type} [DecidableEq α] (k₀ : α) (v : β)
    (rest : List (α × β)) (k : α) :
    eraseKey ((k₀, v) :: rest) k =
      if k₀ = k then eraseKey rest k else (k₀, v) :: eraseKey rest k := by
  simp only [eraseKey, List.filter_cons]
  by_cases h : k₀ = k <;> simp [h, eraseKey]

/-- Looking up the deleted key after a `delete` finds nothing. -/
theorem findVal_eraseKey_self {α β : Type} [DecidableEq α]
    (l : List (α × β)) (k : α) : findVal (eraseKey l k) k = none := by
  induction l with
  | nil => rfl
  | cons p rest ih =>
    obtain ⟨k₀, v⟩ := p
    rw [eraseKey_cons]
    by_cases hk : k₀ = k
    · rw [if_pos hk]; exact ih
    · rw [if_neg hk]; simp [findVal, hk, ih]

/-- A `delete` leaves the bindings of all other keys unchanged. -/
theorem findVal_eraseKey_ne {α β : Type} [DecidableEq α]
    (l : List (α × β)) (k k' : α) (h : k' ≠ k) :
    findVal (eraseKey l k) k' = findVal l k' := by
  induction l with
  | nil => rfl
  | cons p rest ih =>
    obtain ⟨k₀, v⟩ := p
    rw [eraseKey_cons]
    by_cases hk : k₀ = k
    · rw [if_pos hk]
      have hne : ¬ k₀ = k' := by rw [hk]; exact fun he => h he.symm
      simp [findVal, hne, ih]
    · rw [if_neg hk]
      by_cases hk' : k₀ = k'
      · simp [findVal, hk']
      · simp [findVal, hk', ih]

/-! ## Claim theorems -/

/-- C2: For every correlation id (`uint16`), every kind (`uint8`) and every
body of 0 through 65535 bytes, decoding the bytes produced by `Session.pack`
via `Session.Reader` yields back exactly the same correlation id, kind and
body, consuming the whole packet; and the encoded form is the 5-byte header
(2-byte little-endian length, 1-byte kind, 2-byte little-endian correlation
id) followed by the body. -/
theorem pack_reader_roundtrip (head dType : Nat) (body : List Nat)
    (hh : head < 65536) (_hd : dType < 256) (hb : body.length ≤ 65535) :
    Reader (pack head dType body) = some (⟨dType, head, body⟩, []) ∧
    pack head dType body =
      [body.length % 256, (body.length / 256) % 256, dType,
        head % 256, (head / 256) % 256] ++ body :=
  ⟨reader_pack head dType body hh hb, pack_eq_of_le head dType body hb⟩

/-- Witness for C2 at correlation id 770, kind 3, body `[9, 8, 7]`. -/
theorem pack_reader_roundtrip_witness :
    Reader (pack 770 3 [9, 8, 7]) = some (⟨3, 770, [9, 8, 7]⟩, []) ∧
    pack 770 3 [9, 8, 7] =
      [([9, 8, 7] : List Nat).length % 256, (([9, 8, 7] : List Nat).length / 256) % 256, 3,
        770 % 256, (770 / 256) % 256] ++ [9, 8, 7] :=
  pack_reader_roundtrip 770 3 [9, 8, 7] (by decide) (by decide) (by decide)

/-- C6: For every correlation id, kind, and body longer than 65535 bytes,
`Session.pack` emits a frame whose length field is 0 and whose body is
empty — the 5-byte header with zero length and no body bytes — rather than a
truncated body or an error. -/
theorem pack_oversized (head dType : Nat) (body : List Nat)
    (h : body.length > 65535) :
    pack head dType body = [0, 0, dType, head % 256, (head / 256) % 256] := by
  simp [pack, h]

/-- Witness for C6 at a 65536-byte body. -/
theorem pack_oversized_witness :
    (List.replicate 65536 0 : List Nat).length > 65535 ∧
    pack 5 3 (List.replicate 65536 0) = [0, 0, 3, 5 % 256, (5 / 256) % 256] :=
  ⟨by norm_num [List.length_replicate],
   pack_oversized 5 3 (List.replicate 65536 0) (by norm_num [List.length_replicate])⟩

/-- C3 counterexample: applying `Close` and then `Start` to a fresh session
produces the state trace `NEW_CONNECTION, CLOSING, WORKING`, whose last step
moves the state backward — `Start` unconditionally writes `WORKING`, so not
every operation sequence keeps the state moving forward. -/
theorem session_backward_counterexample :
    isForward (trace NEW_CONNECTION [SessionOp.close, SessionOp.start]) = false := by
  decide

/-- C3 (amended): for every session and every sequence of `Start`, `Close`
and `Release` in which each operation is applied in its intended predecessor
state (`Start` in `NEW`, `Close` in `WORKING`, `Release` in `CLOSING`), the
state moves strictly forward along `NEW → WORKING → CLOSING → CLOSED`, never
transitioning backward or re-entering a state. -/
theorem session_state_strictly_forward (s : Nat) (ops : List SessionOp)
    (h : validRun s ops = true) :
    isStrictForward (trace s ops) = true :=
  validRun_strictForward ops s h

/-- Witness for amended C3 on the canonical full lifecycle. -/
theorem session_state_strictly_forward_witness :
    validRun NEW_CONNECTION [SessionOp.start, SessionOp.close, SessionOp.release] = true ∧
    isStrictForward
      (trace NEW_CONNECTION [SessionOp.start, SessionOp.close, SessionOp.release]) = true :=
  ⟨by decide,
   session_state_strictly_forward NEW_CONNECTION
     [SessionOp.start, SessionOp.close, SessionOp.release] (by decide)⟩

/-- C4: once `Release` has completed on a session, a second `Release` aborts
in a runtime panic (`none`): the first `close(inData)` it runs hits an
already-closed channel. -/
theorem release_twice_panics (s s' : SessionRes) (h : Release s = some s') :
    Release s' = none := by
  obtain ⟨i, o, c, st⟩ := s
  cases i <;> cases o <;> cases c <;> simp [Release, goClose] at h <;> try exact h.elim
  rw [← h]
  rfl

/-- Witness for C4: releasing a fresh session once succeeds, releasing the
result aborts. -/
theorem release_twice_panics_witness :
    Release createSession =
      some { inOpen := false, outOpen := false, cCloseOpen := false, state := CLOSED } ∧
    Release { inOpen := false, outOpen := false, cCloseOpen := false, state := CLOSED } = none :=
  ⟨rfl, release_twice_panics createSession _ rfl⟩

/-- C5: a `Client.Call` whose waiter never fires (the 3-second timeout path)
returns the empty result (`nil`), and the pending-call table entry registered
for the call's correlation id is still present in the table afterwards. -/
theorem call_timeout_leaves_entry (st : Table) (sid w : Nat) (b : List Nat) :
    (Call st sid w (some b) CallOutcome.timeout).1 = none ∧
    findVal (Call st sid w (some b) CallOutcome.timeout).2 sid = some w := by
  constructor
  · rfl
  · simp [Call, insertKey, findVal]

/-- C7: `Session.doWrite` drops the frame (enqueues nothing) whenever the
session state is not `WORKING`, and in state `WORKING` it packs the frame
(a `nil` body becoming empty) and enqueues exactly that packet. -/
theorem doWrite_state_gate (state head dType : Nat) (data : Option (List Nat)) :
    (state ≠ WORKING → doWrite state head dType data = none) ∧
    (state = WORKING → doWrite state head dType data =
      some (pack head dType (data.getD []))) := by
  constructor
  · intro h; simp [doWrite, h]
  · intro h; simp [doWrite, h]

/-- Witness for C7 in states `CLOSING` and `WORKING`. -/
theorem doWrite_state_gate_witness :
    doWrite CLOSING 1 DATA (some [9]) = none ∧
    doWrite WORKING 1 DATA (some [9]) = some (pack 1 DATA ((some [9]).getD [])) :=
  ⟨(doWrite_state_gate CLOSING 1 DATA (some [9])).1 (by decide),
   (doWrite_state_gate WORKING 1 DATA (some [9])).2 rfl⟩

/-- C8: on a `HEARTBEAT` frame received for a session in state `WORKING` the
server enqueues a `HEARTBEAT_RET` reply frame that decodes to the same
correlation id as the received frame (and an empty body); when the state is
not `WORKING` no reply is enqueued. -/
theorem heartbeat_ack (state head : Nat) (hh : head < 65536) :
    (state = WORKING →
      serverHandleHeartbeat state head = some (pack head HEARTBEAT_RET []) ∧
      Reader (pack head HEARTBEAT_RET []) = some (⟨HEARTBEAT_RET, head, []⟩, [])) ∧
    (state ≠ WORKING → serverHandleHeartbeat state head = none) := by
  constructor
  · intro h
    refine ⟨?_, reader_pack head HEARTBEAT_RET [] hh (by simp)⟩
    simp [serverHandleHeartbeat, doWrite, h]
  · intro h
    simp [serverHandleHeartbeat, h]

/-- Witness for C8 at correlation id 9, states `WORKING` and `CLOSED`. -/
theorem heartbeat_ack_witness :
    (serverHandleHeartbeat WORKING 9 = some (pack 9 HEARTBEAT_RET []) ∧
      Reader (pack 9 HEARTBEAT_RET []) = some (⟨HEARTBEAT_RET, 9, []⟩, [])) ∧
    serverHandleHeartbeat CLOSED 9 = none :=
  ⟨(heartbeat_ack WORKING 9 (by decide)).1 rfl,
   (heartbeat_ack CLOSED 9 (by decide)).2 (by decide)⟩

/-- C9: a response frame whose correlation id `x` is registered in the
pending-call table is delivered by `Client.Message` exactly to the waiter
registered under `x`, that waiter alone is closed, the entry for `x` is
removed, and every other correlation id keeps its binding. -/
theorem message_resolves_exact_waiter (st : Table) (x w : Nat) (args : List JVal)
    (h : findVal st x = some w) :
    ClientMessage st x (some args) = (some (w, args), eraseKey st x, [w]) ∧
    findVal (eraseKey st x) x = none ∧
    (∀ y, y ≠ x → findVal (eraseKey st x) y = findVal st y) := by
  refine ⟨?_, findVal_eraseKey_self st x, fun y hy => findVal_eraseKey_ne st x y hy⟩
  simp [ClientMessage, h]

/-- Witness for C9 on a table with two pending calls, resolving id 2. -/
theorem message_resolves_exact_waiter_witness :
    ClientMessage [(1, 10), (2, 20)] 2 (some [JVal.jnum 5]) =
      (some (20, [JVal.jnum 5]), eraseKey [(1, 10), (2, 20)] 2, [20]) ∧
    findVal (eraseKey [(1, 10), (2, 20)] 2) 2 = none ∧
    (∀ y, y ≠ 2 → findVal (eraseKey [(1, 10), (2, 20)] 2) y =
      findVal [(1, 10), (2, 20)] y) :=
  message_resolves_exact_waiter [(1, 10), (2, 20)] 2 20 [JVal.jnum 5] rfl

/-- C10: a response frame whose correlation id has no entry in the
pending-call table makes `Client.Message` return with the table unchanged,
nothing delivered and no waiter closed, whatever the body decodes to. -/
theorem message_unmatched_ignored (st : Table) (x : Nat)
    (u : Option (List JVal)) (h : findVal st x = none) :
    ClientMessage st x u = (none, st, []) := by
  simp [ClientMessage, h]

/-- Witness for C10 at an id absent from the table. -/
theorem message_unmatched_ignored_witness :
    ClientMessage [(1, 10)] 5 (some []) = (none, [(1, 10)], []) :=
  message_unmatched_ignored [(1, 10)] 5 (some []) rfl

/-- C1 counterexample: an envelope addressing the registered method `S.M`
(declared parameter type `int`) with a string argument is in the claimed
fifth failure mode — the argument cannot be converted to the declared
parameter type — yet `Server.Message` does not drop the frame: the unchecked
`reflect.Value.Convert` aborts the handling goroutine in a runtime panic. -/
theorem server_message_convert_arg_panics :
    convertOK (JVal.jstr "x") GoKind.kInt = false ∧
    ServerMessage srvW umConvertFail runNone 1 7 [] = RpcOutcome.panicked :=
  ⟨rfl, rfl⟩

/-- C1 (amended): for every inbound envelope on a known fd, the failure
modes body-not-valid-JSON, first-element-without-a-dot, unknown service and
unknown method each cause the frame to be dropped with no response frame
sent and no abnormal abort; but an argument that cannot be converted to the
method's declared parameter type aborts the handler in a runtime panic
rather than dropping the frame. -/
theorem server_message_failure_modes (srv : ServerModel)
    (um : List Nat → Option (List JVal))
    (run : String → String → List JVal → Option (List JVal))
    (fd sid : Nat) (body : List Nat)
    (hfd : srv.sessions.contains fd = true) :
    (um body = none → ServerMessage srv um run fd sid body = RpcOutcome.dropped) ∧
    (∀ info rest, um body = some (JVal.jstr info :: rest) →
      lastIndexDot info.toList = none →
      ServerMessage srv um run fd sid body = RpcOutcome.dropped) ∧
    (∀ info rest dot, um body = some (JVal.jstr info :: rest) →
      lastIndexDot info.toList = some dot →
      findVal srv.serviceMap (String.mk (info.toList.take dot)) = none →
      ServerMessage srv um run fd sid body = RpcOutcome.dropped) ∧
    (∀ info rest dot sInfo, um body = some (JVal.jstr info :: rest) →
      lastIndexDot info.toList = some dot →
      findVal srv.serviceMap (String.mk (info.toList.take dot)) = some sInfo →
      findVal sInfo.methods (String.mk (info.toList.drop (dot + 1))) = none →
      ServerMessage srv um run fd sid body = RpcOutcome.dropped) ∧
    (∀ info rest dot sInfo ks, um body = some (JVal.jstr info :: rest) →
      lastIndexDot info.toList = some dot →
      findVal srv.serviceMap (String.mk (info.toList.take dot)) = some sInfo →
      findVal sInfo.methods (String.mk (info.toList.drop (dot + 1))) = some ks →
      convertArgs rest ks = Except.error () →
      ServerMessage srv um run fd sid body = RpcOutcome.panicked) := by
  have hmem : fd ∈ srv.sessions := by simpa using hfd
  refine ⟨?_, ?_, ?_, ?_, ?_⟩
  · intro h
    simp [ServerMessage, hmem, h]
  · intro info rest h1 h2
    simp only [String.toList] at h2
    simp [ServerMessage, hmem, h1, h2]
  · intro info rest dot h1 h2 h3
    simp only [String.toList] at h2 h3
    simp [ServerMessage, hmem, h1, h2, h3]
  · intro info rest dot sInfo h1 h2 h3 h4
    simp only [String.toList] at h2 h3 h4
    simp [ServerMessage, hmem, h1, h2, h3, h4]
  · intro info rest dot sInfo ks h1 h2 h3 h4 h5
    simp only [String.toList] at h2 h3 h4
    simp [ServerMessage, hmem, h1, h2, h3, h4, h5]

/-- Witness for amended C1 exercising each arm against the one-service
registry `srvW`. -/
theorem server_message_failure_modes_witness :
    ServerMessage srvW umW runNone 1 7 [0] = RpcOutcome.dropped ∧
    ServerMessage srvW umW runNone 1 7 [1] = RpcOutcome.dropped ∧
    ServerMessage srvW umW runNone 1 7 [2] = RpcOutcome.dropped ∧
    ServerMessage srvW umW runNone 1 7 [3] = RpcOutcome.dropped ∧
    ServerMessage srvW umW runNone 1 7 [4] = RpcOutcome.panicked :=
  ⟨(server_message_failure_modes srvW umW runNone 1 7 [0] rfl).1 rfl,
   (server_message_failure_modes srvW umW runNone 1 7 [1] rfl).2.1 "SM" [] rfl rfl,
   (server_message_failure_modes srvW umW runNone 1 7 [2] rfl).2.2.1 "T.M" [] 1 rfl rfl rfl,
   (server_message_failure_modes srvW umW runNone 1 7 [3] rfl).2.2.2.1 "S.Q" [] 1
     { methods := [("M", [GoKind.kInt])] } rfl rfl rfl rfl,
   (server_message_failure_modes srvW umW runNone 1 7 [4] rfl).2.2.2.2 "S.M"
     [JVal.jbool true] 1 { methods := [("M", [GoKind.kInt])] } [GoKind.kInt]
     rfl rfl rfl rfl rfl⟩

end Eegos
